import Mathlib

/-!
Shallow embedding of the digital signature pad (src/src/App.js).

The component keeps React state `isDrawing`, `currentUser` (admin or
client), `signatureStatus` (not_signed, requested, signed), `padActive`
and a fixed `fileFormat` of "png", plus a canvas with a 2d context.
Coordinates are modelled as rationals (browser CSS pixels are real
numbers).  The canvas pixel buffer is modelled as the list of stroked
line segments currently painted on it, with endpoints in backing
(physical) pixel coordinates; assigning `canvas.width` or
`canvas.height` clears this list and resets the context transform,
exactly as in the HTML canvas semantics that the source relies on.
-/

namespace SigPad

/-- A point, as a pair of rationals. -/
abbrev Pt := ℚ × ℚ

/-- The two roles of `currentUser` in App.js: "admin" and "client".
The spec calls them Initiator and Signer. -/
inductive Role where
  | admin
  | client
deriving DecidableEq

/-- The three values of `signatureStatus` in App.js. -/
inductive SigStatus where
  | not_signed
  | requested
  | signed
deriving DecidableEq

/-- A painted mark in the pixel buffer: one stroked line segment, with
endpoints in backing (physical) pixel coordinates. -/
inductive Mark where
  | seg (p q : Pt)
deriving DecidableEq

/-- First endpoint of the segment. -/
def Mark.ep1 : Mark → Pt
  | .seg p _ => p

/-- Second endpoint of the segment. -/
def Mark.ep2 : Mark → Pt
  | .seg _ q => q

/-- The mark lies within the axis-aligned rectangle from (0, 0) to
(w, h): both endpoints do.  Since the rectangle is convex, endpoint
containment is exact for a line segment, not an approximation. -/
abbrev Mark.inRect (m : Mark) (w h : ℚ) : Prop :=
  0 ≤ m.ep1.1 ∧ m.ep1.1 ≤ w ∧ 0 ≤ m.ep1.2 ∧ m.ep1.2 ≤ h ∧
  0 ≤ m.ep2.1 ∧ m.ep2.1 ≤ w ∧ 0 ≤ m.ep2.2 ∧ m.ep2.2 ≤ h

/-- Erase from a mark list everything a clear of the backing region
from (0, 0) to (w, h) wipes out: a mark entirely inside the region is
removed (exact, by convexity), a mark entirely outside is untouched
(exact).  A mark only partially inside the region keeps surviving ink
in the real pixel buffer and is kept whole here, since ink is tracked
at segment granularity; no theorem below rests on that case. -/
def clearMarks (w h : ℚ) : List Mark → List Mark
  | [] => []
  | m :: rest =>
      if m.inRect w h then clearMarks w h rest else m :: clearMarks w h rest

/-- An encoded raster image, as produced by `canvas.toDataURL()`: the
natural size is the backing resolution of the canvas at capture time,
and the content is the captured pixel buffer. -/
structure Img where
  w : ℚ
  h : ℚ
  marks : List Mark
deriving DecidableEq

/-- The canvas element together with the 2d context: backing resolution
(`width`, `height`), displayed logical size (`offsetWidth`,
`offsetHeight`), the current uniform scale transform of the context
(set by `ctx.scale(density, density)` in `setupCanvas`), and the pixel
buffer. -/
structure Canvas where
  width : ℚ
  height : ℚ
  offsetWidth : ℚ
  offsetHeight : ℚ
  scale : ℚ
  marks : List Mark
deriving DecidableEq

/-- Embeds `canvas.toDataURL()`: capture the current pixel buffer as an
encoded image whose natural size is the backing resolution. -/
def Canvas.toDataURL (c : Canvas) : Img :=
  ⟨c.width, c.height, c.marks⟩

/-- Embeds `setupCanvas` (App.js lines 26-34): set the backing
resolution to the displayed size times `window.devicePixelRatio`
(called `density` here) and apply `ctx.scale(density, density)`.
Assigning `canvas.width` resets the pixel buffer to blank and the
context transform to the identity, so the resulting scale is exactly
`density` and the buffer is empty. -/
def setupCanvas (offW offH density : ℚ) : Canvas :=
  { width := offW * density
    height := offH * density
    offsetWidth := offW
    offsetHeight := offH
    scale := density
    marks := [] }

/-- Embeds `ctx.lineTo(x, y); ctx.stroke()` starting from path position
`p`: paint one line segment from `p` to `q` (both in logical
coordinates); the context transform maps the endpoints to backing
pixels. -/
def Canvas.strokeSeg (c : Canvas) (p q : Pt) : Canvas :=
  { c with marks := c.marks ++
      [Mark.seg (c.scale * p.1, c.scale * p.2) (c.scale * q.1, c.scale * q.2)] }

/-- Embeds `ctx.clearRect(0, 0, w, h)`: the rectangle is given in user
space and is mapped through the context transform, so the cleared
backing region runs from (0, 0) to (w * scale, h * scale).  With the
arguments `canvas.width, canvas.height` the source passes, this covers
the whole backing buffer exactly when the scale is at least 1; at a
scale below 1 it covers only a sub-rectangle of the buffer. -/
def Canvas.clearRect (c : Canvas) (w h : ℚ) : Canvas :=
  { c with marks := clearMarks (w * c.scale) (h * c.scale) c.marks }

/-- Embeds `ctx.drawImage(img, dx, dy, dw, dh)`: paint `img` with the
top-left corner at logical `(dx, dy)`, scaled to a destination
rectangle of logical size `dw` times `dh`; an image pixel at
`(sx, sy)` lands at logical `(dx + sx * dw / img.w,
dy + sy * dh / img.h)`, which the context transform then maps to
backing pixels. -/
def Canvas.drawImageRect (c : Canvas) (img : Img) (dx dy dw dh : ℚ) : Canvas :=
  { c with marks := c.marks ++ img.marks.map (fun m =>
      match m with
      | .seg p q =>
          .seg (c.scale * (dx + p.1 * dw / img.w), c.scale * (dy + p.2 * dh / img.h))
               (c.scale * (dx + q.1 * dw / img.w), c.scale * (dy + q.2 * dh / img.h))) }

/-- Embeds `ctx.drawImage(img, dx, dy)` with two coordinates and no
size arguments, as used in `handleResize` (App.js line 47): the
destination rectangle has the NATURAL size of the image, that is
`dw = img.w` and `dh = img.h`. -/
def Canvas.drawImage2 (c : Canvas) (img : Img) (dx dy : ℚ) : Canvas :=
  c.drawImageRect img dx dy img.w img.h

/-- One touch contact point of a touch event (`clientX`, `clientY`). -/
structure Touch where
  clientX : ℚ
  clientY : ℚ
deriving DecidableEq

/-- The bounding rectangle of the surface, as returned by
`canvas.getBoundingClientRect()`. -/
structure Rect where
  left : ℚ
  top : ℚ
deriving DecidableEq

/-- A raw mouse or touch event as `getCoordinates` consumes it.  For a
touch event, `touches` is the TouchList: the first active contact and
the list of further simultaneous contacts (the DOM guarantees at least
one contact on the touchstart and touchmove events these handlers are
bound to).  For a mouse event `touches` is absent and `clientX`,
`clientY` are used. -/
structure InputEvent where
  touches : Option (Touch × List Touch)
  clientX : ℚ
  clientY : ℚ
deriving DecidableEq

/-- Embeds `getCoordinates` (App.js lines 60-75): if the event has
touches, use the first contact; otherwise use the mouse coordinates;
subtract the left and top of the bounding rectangle in both cases. -/
def getCoordinates (e : InputEvent) (rect : Rect) : Pt :=
  match e.touches with
  | some (t, _) => (t.clientX - rect.left, t.clientY - rect.top)
  | none => (e.clientX - rect.left, e.clientY - rect.top)

/-- The whole component state: the React state hooks, the canvas, the
current path position of the 2d context (set by `moveTo` and `lineTo`),
the device pixel density of the environment (`window.devicePixelRatio`
in the source), and the queue of resize redraws whose image decode has
not completed yet (each `handleResize` call creates one Image whose
`onload` callback fires later). -/
structure Engine where
  isDrawing : Bool
  currentUser : Role
  signatureStatus : SigStatus
  padActive : Bool
  fileFormat : String
  canvas : Canvas
  pathPos : Pt
  density : ℚ
  pending : List Img
deriving DecidableEq

/-- The component right after mount (App.js lines 14-18 and the
`useLayoutEffect` initialization): admin, not signed, pad inactive,
not drawing, format "png", canvas set up from the initial displayed
size. -/
def initEngine (offW offH density : ℚ) : Engine :=
  { isDrawing := false
    currentUser := .admin
    signatureStatus := .not_signed
    padActive := false
    fileFormat := "png"
    canvas := setupCanvas offW offH density
    pathPos := (0, 0)
    density := density
    pending := [] }

/-- Embeds `canDraw` (App.js lines 81-83). -/
def canDraw (s : Engine) : Bool :=
  s.currentUser == .client && s.padActive

/-- Embeds `startDrawing` (App.js lines 89-98): if `canDraw()` is
false, return without touching anything; otherwise set `isDrawing` to
true and begin a new path at the mapped point (`beginPath` and `moveTo`
paint no pixels). -/
def startDrawing (s : Engine) (e : InputEvent) (rect : Rect) : Engine :=
  if !(canDraw s) then s
  else
    { s with isDrawing := true, pathPos := getCoordinates e rect }

/-- Embeds `draw` (App.js lines 104-112): if not drawing or not
allowed, return; otherwise stroke a segment from the path position to
the mapped point and advance the path position. -/
def draw (s : Engine) (e : InputEvent) (rect : Rect) : Engine :=
  if !s.isDrawing || !(canDraw s) then s
  else
    let p := getCoordinates e rect
    { s with canvas := s.canvas.strokeSeg s.pathPos p, pathPos := p }

/-- Embeds `stopDrawing` (App.js lines 118-124): if not drawing,
return; otherwise set `isDrawing` to false and close the path
(`closePath` paints nothing here since every segment is already
stroked). -/
def stopDrawing (s : Engine) : Engine :=
  if !s.isDrawing then s
  else { s with isDrawing := false }

/-- Embeds `clearCanvas` (App.js lines 129-139): run
`ctx.clearRect(0, 0, canvas.width, canvas.height)` on the pixel
buffer; if the status was signed, reset it to not signed.  The null
checks on the refs never fire after mount. -/
def clearCanvas (s : Engine) : Engine :=
  { s with
    canvas := s.canvas.clearRect s.canvas.width s.canvas.height
    signatureStatus :=
      if s.signatureStatus = .signed then .not_signed else s.signatureStatus }

/-- The MIME types the canvas encoder supports; `toDataURL` with any
other type string silently falls back to "image/png" (HTML canvas
semantics, which the source relies on). -/
def supportedMimes : List String := ["image/png", "image/jpeg", "image/webp"]

/-- Embeds `canvas.toDataURL(mimeType)`: the encoded output, modelled
as the actually used MIME type together with the captured image.
Encoding is deterministic, so equal inputs give byte-identical data
URLs. -/
def encodeDataURL (c : Canvas) (mime : String) : String × Img :=
  ((if supportedMimes.contains mime then mime else "image/png"), c.toDataURL)

/-- Embeds `downloadSignature` (App.js lines 144-157): encode the
current pixel buffer as image/<fileFormat> and hand the data URL to a
download link.  No component state is touched; the result is the
unchanged state paired with the encoded output delivered to the
sink. -/
def downloadSignature (s : Engine) : Engine × (String × Img) :=
  (s, encodeDataURL s.canvas ("image/" ++ s.fileFormat))

/-- Embeds `requestSignature` (App.js lines 162-169): if the current
user is not admin, return; otherwise clear the canvas (via
`clearCanvas`), then set status requested, pad active, and switch to
client. -/
def requestSignature (s : Engine) : Engine :=
  if s.currentUser ≠ .admin then s
  else
    { clearCanvas s with
      signatureStatus := .requested
      padActive := true
      currentUser := .client }

/-- Embeds `completeSignature` (App.js lines 174-180): if the current
user is not client, return; otherwise set status signed, pad inactive,
and switch to admin.  The signature status is NOT consulted. -/
def completeSignature (s : Engine) : Engine :=
  if s.currentUser ≠ .client then s
  else
    { s with
      signatureStatus := .signed
      padActive := false
      currentUser := .admin }

/-- Embeds `toggleUser` (App.js lines 185-187): switch the current user
to the other role. -/
def toggleUser (s : Engine) : Engine :=
  { s with currentUser := if s.currentUser = .admin then .client else .admin }

/-- Embeds `handleResize` (App.js lines 41-49): first capture the old
buffer with `canvas.toDataURL()`, then run `setupCanvas` for the new
displayed size (which blanks the buffer and re-derives resolution and
scale), then create an Image from the captured data URL whose `onload`
callback later calls `ctx.drawImage(img, 0, 0)`.  The pending decode
is appended to the queue; no generation counter exists anywhere in the
source. -/
def handleResize (s : Engine) (newOffW newOffH : ℚ) : Engine :=
  let prevImage := s.canvas.toDataURL
  { s with
    canvas := setupCanvas newOffW newOffH s.density
    pending := s.pending ++ [prevImage] }

/-- The `onload` callback of the pending resize image number `k`
firing: draw the decoded image at `(0, 0)` with the two-argument
`drawImage` and remove it from the pending queue.  The code applies
the redraw unconditionally, whichever resize it belonged to. -/
def redrawDone (s : Engine) (k : ℕ) : Engine :=
  match s.pending.get? k with
  | none => s
  | some img =>
      { s with
        canvas := s.canvas.drawImage2 img 0 0
        pending := s.pending.eraseIdx k }

/-- An event the component can receive: the canvas input handlers, the
button handlers, a window resize, or the completion of a pending
resize redraw. -/
inductive Ev where
  | penDown (e : InputEvent) (rect : Rect)
  | penMove (e : InputEvent) (rect : Rect)
  | penUp
  | clear
  | download
  | request
  | complete
  | toggle
  | resize (newOffW newOffH : ℚ)
  | redraw (k : ℕ)
deriving DecidableEq

/-- Dispatch one event to the corresponding handler. -/
def step (s : Engine) : Ev → Engine
  | .penDown e rect => startDrawing s e rect
  | .penMove e rect => draw s e rect
  | .penUp => stopDrawing s
  | .clear => clearCanvas s
  | .download => (downloadSignature s).1
  | .request => requestSignature s
  | .complete => completeSignature s
  | .toggle => toggleUser s
  | .resize w h => handleResize s w h
  | .redraw k => redrawDone s k

/-- Run a sequence of events. -/
def run (s : Engine) (evs : List Ev) : Engine :=
  evs.foldl step s

/-- The workflow actions named by the state-machine claims:
RequestSignature, CompleteSignature, Clear, ToggleRole, Export. -/
inductive WfAct where
  | request
  | complete
  | clear
  | toggle
  | download
deriving DecidableEq

/-- Dispatch one workflow action to the corresponding handler. -/
def wfStep (s : Engine) : WfAct → Engine
  | .request => requestSignature s
  | .complete => completeSignature s
  | .clear => clearCanvas s
  | .toggle => toggleUser s
  | .download => (downloadSignature s).1

/-- Run a sequence of workflow actions. -/
def wfRun (s : Engine) (acts : List WfAct) : Engine :=
  acts.foldl wfStep s

/-- Modelled from the spec: the redraw step the specification describes
for a resize, painting the captured image at logical position (0, 0)
stretched to the NEW logical size of the surface.  Stated only to be
compared with the redraw the source actually performs. -/
def specResizeRedraw (c : Canvas) (img : Img) : Canvas :=
  c.drawImageRect img 0 0 c.offsetWidth c.offsetHeight

end SigPad

namespace SigPad

lemma wf_inv_step (s : Engine) (a : WfAct)
    (h : s.padActive = true → s.signatureStatus = .requested) :
    (wfStep s a).padActive = true → (wfStep s a).signatureStatus = .requested := by
  cases a
  case request =>
    by_cases hu : s.currentUser = .admin
    · simp [wfStep, requestSignature, hu]
    · simp [wfStep, requestSignature, hu]
      exact h
  case complete =>
    by_cases hu : s.currentUser = .client
    · simp [wfStep, completeSignature, hu]
    · simp [wfStep, completeSignature, hu]
      exact h
  case clear =>
    intro hp
    have hs := h hp
    simp [wfStep, clearCanvas, hs]
  case toggle =>
    exact h
  case download =>
    exact h

lemma wf_inv_run (s : Engine) (acts : List WfAct)
    (h : s.padActive = true → s.signatureStatus = .requested) :
    (wfRun s acts).padActive = true → (wfRun s acts).signatureStatus = .requested := by
  induction acts generalizing s with
  | nil => exact h
  | cons a rest ih => exact ih (wfStep s a) (wf_inv_step s a h)

lemma clearMarks_nil_of_inRect (w h : ℚ) (l : List Mark)
    (hm : ∀ m ∈ l, m.inRect w h) : clearMarks w h l = [] := by
  induction l with
  | nil => rfl
  | cons m rest ih =>
      simp only [clearMarks]
      rw [if_pos (hm m (by simp))]
      exact ih (fun x hx => hm x (by simp [hx]))

lemma clearRect_marks_nil (c : Canvas) (hs : 1 ≤ c.scale)
    (hm : ∀ m ∈ c.marks, m.inRect c.width c.height) :
    (c.clearRect c.width c.height).marks = [] := by
  apply clearMarks_nil_of_inRect
  intro m hmem
  obtain ⟨h1, h2, h3, h4, h5, h6, h7, h8⟩ := hm m hmem
  have hw : (0 : ℚ) ≤ c.width := le_trans h1 h2
  have hh : (0 : ℚ) ≤ c.height := le_trans h3 h4
  have hws := le_mul_of_one_le_right hw hs
  have hhs := le_mul_of_one_le_right hh hs
  exact ⟨h1, h2.trans hws, h3, h4.trans hhs, h5, h6.trans hws, h7, h8.trans hhs⟩

/-- Claim C1 (amended): a draw segment is rendered into the pixel
buffer only when the active role is client (Signer) and `padActive` is
true and a stroke is in progress; whenever the role is not client or
the pad is not active, pen-down and pointer-move leave the pixel
buffer unchanged, pointer-move leaves the whole state unchanged, and
pen-down leaves `isDrawing` UNCHANGED (not necessarily false: the flag
stays true if a stroke was in progress when the role or the active
flag changed).  Pen-down never paints pixels in any state.  Since the
statement holds at every state, it holds along every sequence of input
and workflow events. -/
theorem c1_gating (s : Engine) (e : InputEvent) (rect : Rect) :
    (¬ (s.currentUser = .client ∧ s.padActive = true) →
      (startDrawing s e rect).canvas = s.canvas ∧
      (startDrawing s e rect).isDrawing = s.isDrawing ∧
      draw s e rect = s) ∧
    (startDrawing s e rect).canvas = s.canvas ∧
    ((draw s e rect).canvas ≠ s.canvas →
      s.currentUser = .client ∧ s.padActive = true ∧ s.isDrawing = true) := by
  cases hu : s.currentUser <;> cases hp : s.padActive <;> cases hd : s.isDrawing <;>
    simp [startDrawing, draw, canDraw, hu, hp, hd]

/-- Witness for C1: at the freshly mounted state (admin, inactive),
pen-down and pointer-move leave the buffer, the `isDrawing` flag and
the whole state unchanged. -/
theorem c1_gating_witness :
    (startDrawing (initEngine 100 50 1) ⟨none, 10, 10⟩ ⟨0, 0⟩).canvas =
      (initEngine 100 50 1).canvas ∧
    (startDrawing (initEngine 100 50 1) ⟨none, 10, 10⟩ ⟨0, 0⟩).isDrawing =
      (initEngine 100 50 1).isDrawing ∧
    draw (initEngine 100 50 1) ⟨none, 10, 10⟩ ⟨0, 0⟩ = initEngine 100 50 1 :=
  (c1_gating (initEngine 100 50 1) ⟨none, 10, 10⟩ ⟨0, 0⟩).1 (by simp [initEngine])

/-- Counterexample to C1 as stated: after RequestSignature, a pen-down
and a ToggleRole, the state has role admin (Initiator) with `canDraw`
false, yet a pen-down in this state leaves `isDrawing` equal to true —
the claim says pen-down leaves `isDrawing` false in every combination
where drawing is not permitted. -/
theorem c1_counterexample :
    (run (initEngine 100 50 1)
        [.request, .penDown ⟨none, 10, 10⟩ ⟨0, 0⟩, .toggle]).currentUser = Role.admin ∧
    canDraw (run (initEngine 100 50 1)
        [.request, .penDown ⟨none, 10, 10⟩ ⟨0, 0⟩, .toggle]) = false ∧
    (startDrawing (run (initEngine 100 50 1)
        [.request, .penDown ⟨none, 10, 10⟩ ⟨0, 0⟩, .toggle]) ⟨none, 10, 10⟩ ⟨0, 0⟩).isDrawing
      = true :=
  ⟨rfl, rfl, rfl⟩

/-- Claim C2 (amended): the only precondition `completeSignature`
checks is that the active role is client (Signer): in that case it
sets the status to signed, deactivates the pad and switches to admin
REGARDLESS of the current signature status; when the role is admin
(Initiator) it is a no-op leaving status, role, pad activity and the
pixel buffer unchanged. -/
theorem c2_complete (s : Engine) :
    (s.currentUser = .client →
      completeSignature s =
        { s with signatureStatus := .signed, padActive := false, currentUser := .admin }) ∧
    (s.currentUser = .admin → completeSignature s = s) := by
  constructor
  · intro h
    simp [completeSignature, h]
  · intro h
    simp [completeSignature, h]

/-- Witness for C2: the two branches applied at concrete states, the
toggled initial state (client) and the initial state (admin). -/
theorem c2_complete_witness :
    completeSignature (toggleUser (initEngine 100 50 1)) =
      { toggleUser (initEngine 100 50 1) with
        signatureStatus := .signed, padActive := false, currentUser := .admin } ∧
    completeSignature (initEngine 100 50 1) = initEngine 100 50 1 :=
  ⟨(c2_complete _).1 rfl, (c2_complete _).2 rfl⟩

/-- Counterexample to C2 as stated: from the initial state, ToggleRole
reaches the state (client, not_signed), where the claim says
CompleteSignature is a no-op; the code instead transitions it to
signed and switches back to admin. -/
theorem c2_counterexample :
    (toggleUser (initEngine 100 50 1)).currentUser = Role.client ∧
    (toggleUser (initEngine 100 50 1)).signatureStatus = SigStatus.not_signed ∧
    (completeSignature (toggleUser (initEngine 100 50 1))).signatureStatus = SigStatus.signed ∧
    (completeSignature (toggleUser (initEngine 100 50 1))).currentUser = Role.admin ∧
    completeSignature (toggleUser (initEngine 100 50 1)) ≠ toggleUser (initEngine 100 50 1) := by
  refine ⟨rfl, rfl, rfl, rfl, ?_⟩
  intro h
  have h2 := congrArg Engine.signatureStatus h
  exact absurd h2 (by decide)

/-- Claim C3 (amended): when the active role is admin (Initiator) —
whatever the signature status, so also after signed — the re-request
is permitted: `requestSignature` sets status requested, pad active,
role client, and runs the clear, which erases the backing region from
(0, 0) to (width * scale, height * scale); the surface therefore ends
blank whenever the device pixel density is at least 1 and the ink lies
within the backing buffer, but at a density below 1 ink outside the
cleared sub-rectangle survives.  When the role is client it is a
no-op.  The cycle RequestSignature, CompleteSignature,
RequestSignature from the initial state ends with status requested,
role client, and a blank surface. -/
theorem c3_request (s : Engine) (offW offH d : ℚ) :
    (s.currentUser = .admin →
      (requestSignature s).signatureStatus = .requested ∧
      (requestSignature s).padActive = true ∧
      (requestSignature s).currentUser = .client ∧
      (requestSignature s).canvas = s.canvas.clearRect s.canvas.width s.canvas.height ∧
      (1 ≤ s.canvas.scale →
        (∀ m ∈ s.canvas.marks, m.inRect s.canvas.width s.canvas.height) →
        (requestSignature s).canvas.marks = [])) ∧
    (s.currentUser = .client → requestSignature s = s) ∧
    ((run (initEngine offW offH d) [.request, .complete, .request]).signatureStatus = .requested ∧
     (run (initEngine offW offH d) [.request, .complete, .request]).currentUser = .client ∧
     (run (initEngine offW offH d) [.request, .complete, .request]).canvas.marks = []) := by
  refine ⟨?_, ?_, ?_, ?_, ?_⟩
  · intro h
    refine ⟨by simp [requestSignature, h], by simp [requestSignature, h],
      by simp [requestSignature, h], by simp [requestSignature, clearCanvas, h], ?_⟩
    intro hs hm
    have hc : (requestSignature s).canvas = s.canvas.clearRect s.canvas.width s.canvas.height := by
      simp [requestSignature, clearCanvas, h]
    rw [hc]
    exact clearRect_marks_nil s.canvas hs hm
  · intro h
    simp [requestSignature, h]
  · rfl
  · rfl
  · rfl

/-- Witness for C3: from an admin state at density 1 holding one
stroke inside the 100 by 50 buffer, the re-request erases the stroke
and restarts the request workflow. -/
theorem c3_request_witness :
    (requestSignature { initEngine 100 50 1 with
        canvas := ⟨100, 50, 100, 50, 1, [Mark.seg (5, 5) (10, 10)]⟩ }).signatureStatus
      = .requested ∧
    (requestSignature { initEngine 100 50 1 with
        canvas := ⟨100, 50, 100, 50, 1, [Mark.seg (5, 5) (10, 10)]⟩ }).padActive = true ∧
    (requestSignature { initEngine 100 50 1 with
        canvas := ⟨100, 50, 100, 50, 1, [Mark.seg (5, 5) (10, 10)]⟩ }).currentUser = .client ∧
    (requestSignature { initEngine 100 50 1 with
        canvas := ⟨100, 50, 100, 50, 1, [Mark.seg (5, 5) (10, 10)]⟩ }).canvas.marks = [] := by
  have h := (c3_request { initEngine 100 50 1 with
      canvas := ⟨100, 50, 100, 50, 1, [Mark.seg (5, 5) (10, 10)]⟩ } 100 50 1).1 rfl
  refine ⟨h.1, h.2.1, h.2.2.1, h.2.2.2.2 (by norm_num) ?_⟩
  intro m hm
  simp only [List.mem_singleton] at hm
  subst hm
  norm_num [Mark.inRect, Mark.ep1, Mark.ep2]

/-- Counterexample to C3 as stated: at device pixel density 1/2 the
buffer is 50 by 50 and the clear inside `requestSignature` wipes only
the backing region up to (25, 25); from a reachable Initiator state
holding a stroke at backing pixels (30, 30)-(40, 40) — inside the
buffer, so genuinely visible ink — RequestSignature does NOT clear the
surface to blank. -/
theorem c3_counterexample :
    (run (initEngine 100 100 (1/2))
        [.request, .penDown ⟨none, 60, 60⟩ ⟨0, 0⟩, .penMove ⟨none, 80, 80⟩ ⟨0, 0⟩, .penUp,
         .complete]).currentUser = Role.admin ∧
    (requestSignature (run (initEngine 100 100 (1/2))
        [.request, .penDown ⟨none, 60, 60⟩ ⟨0, 0⟩, .penMove ⟨none, 80, 80⟩ ⟨0, 0⟩, .penUp,
         .complete])).canvas.marks = [Mark.seg (30, 30) (40, 40)] ∧
    Mark.inRect (Mark.seg (30, 30) (40, 40))
      (requestSignature (run (initEngine 100 100 (1/2))
        [.request, .penDown ⟨none, 60, 60⟩ ⟨0, 0⟩, .penMove ⟨none, 80, 80⟩ ⟨0, 0⟩, .penUp,
         .complete])).canvas.width
      (requestSignature (run (initEngine 100 100 (1/2))
        [.request, .penDown ⟨none, 60, 60⟩ ⟨0, 0⟩, .penMove ⟨none, 80, 80⟩ ⟨0, 0⟩, .penUp,
         .complete])).canvas.height ∧
    (requestSignature (run (initEngine 100 100 (1/2))
        [.request, .penDown ⟨none, 60, 60⟩ ⟨0, 0⟩, .penMove ⟨none, 80, 80⟩ ⟨0, 0⟩, .penUp,
         .complete])).canvas.marks ≠ [] := by
  refine ⟨?_, ?_, ?_, ?_⟩ <;>
    norm_num [run, step, initEngine, setupCanvas, startDrawing, draw, stopDrawing,
      canDraw, getCoordinates, requestSignature, completeSignature, clearCanvas,
      Canvas.clearRect, clearMarks, Mark.inRect, Mark.ep1, Mark.ep2, Canvas.strokeSeg]

/-- Claim C4 (amended): `handleResize` captures the old backing buffer
as an encoded image BEFORE re-deriving the backing resolution and
scale, and the completion of the asynchronous decode redraws the
captured image at logical position (0, 0) at the NATURAL size of the
image (the old backing resolution, via the two-argument `drawImage`),
not stretched to the new logical size. -/
theorem c4_resize (s : Engine) (w h : ℚ) :
    (handleResize s w h).pending = s.pending ++ [s.canvas.toDataURL] ∧
    (handleResize s w h).canvas = setupCanvas w h s.density ∧
    (∀ (img : Img) (rest : List Img), s.pending = img :: rest →
      redrawDone s 0 =
        { s with canvas := s.canvas.drawImage2 img 0 0, pending := rest }) := by
  refine ⟨rfl, rfl, ?_⟩
  intro img rest hp
  simp [redrawDone, hp]

/-- Witness for C4: the redraw completing after a resize of the
initial 100 by 100 surface at density 2 paints the captured blank
200 by 200 image at natural size. -/
theorem c4_resize_witness :
    redrawDone (handleResize (initEngine 100 100 2) 100 100) 0 =
      { handleResize (initEngine 100 100 2) 100 100 with
        canvas := (handleResize (initEngine 100 100 2) 100 100).canvas.drawImage2
          ⟨200, 200, []⟩ 0 0
        pending := [] } :=
  (c4_resize (handleResize (initEngine 100 100 2) 100 100) 100 100).2.2 ⟨200, 200, []⟩ []
    (by norm_num [handleResize, initEngine, setupCanvas, Canvas.toDataURL])

/-- Counterexample to C4 as stated: on a 100 by 100 logical surface at
density 2, a stroke from logical (10, 10) to (30, 10) is painted at
backing pixels (20, 20)-(60, 20); after a resize to the same logical
size, the completed redraw paints it at backing pixels
(40, 40)-(120, 40) — the captured image is drawn at natural size, so
the ink is NOT at the corresponding relative position (it moved even
though the logical size did not change), and the result differs from
the redraw stretched to the new logical size that the claim
describes. -/
theorem c4_counterexample :
    (run (initEngine 100 100 2)
        [.request, .penDown ⟨none, 10, 10⟩ ⟨0, 0⟩, .penMove ⟨none, 30, 10⟩ ⟨0, 0⟩,
         .penUp, .resize 100 100]).pending =
      [⟨200, 200, [Mark.seg (20, 20) (60, 20)]⟩] ∧
    (redrawDone (run (initEngine 100 100 2)
        [.request, .penDown ⟨none, 10, 10⟩ ⟨0, 0⟩, .penMove ⟨none, 30, 10⟩ ⟨0, 0⟩,
         .penUp, .resize 100 100]) 0).canvas.marks =
      [Mark.seg (40, 40) (120, 40)] ∧
    (specResizeRedraw (run (initEngine 100 100 2)
        [.request, .penDown ⟨none, 10, 10⟩ ⟨0, 0⟩, .penMove ⟨none, 30, 10⟩ ⟨0, 0⟩,
         .penUp, .resize 100 100]).canvas
        ⟨200, 200, [Mark.seg (20, 20) (60, 20)]⟩).marks =
      [Mark.seg (20, 20) (60, 20)] ∧
    (redrawDone (run (initEngine 100 100 2)
        [.request, .penDown ⟨none, 10, 10⟩ ⟨0, 0⟩, .penMove ⟨none, 30, 10⟩ ⟨0, 0⟩,
         .penUp, .resize 100 100]) 0).canvas.marks ≠
      (specResizeRedraw (run (initEngine 100 100 2)
        [.request, .penDown ⟨none, 10, 10⟩ ⟨0, 0⟩, .penMove ⟨none, 30, 10⟩ ⟨0, 0⟩,
         .penUp, .resize 100 100]).canvas
        ⟨200, 200, [Mark.seg (20, 20) (60, 20)]⟩).marks := by
  refine ⟨?_, ?_, ?_, ?_⟩ <;>
    norm_num [run, step, initEngine, setupCanvas, startDrawing, draw, stopDrawing,
      canDraw, getCoordinates, requestSignature, clearCanvas,
      Canvas.strokeSeg, handleResize, Canvas.toDataURL, redrawDone,
      Canvas.drawImage2, Canvas.drawImageRect, specResizeRedraw, Canvas.clearRect, clearMarks]

/-- Claim C5: the code tracks no resize generation counter, and a
stale redraw is NOT discarded.  Evaluating the failing schedule: draw
a stroke at (10, 10)-(30, 10), start a first resize (which captures
the stroke), start a second resize (which captures a blank surface),
draw a new stroke at the same place; when the FIRST resize redraw then
completes, the code paints the captured old ink over the buffer — the
mark list grows from one segment to two and the buffer changes, so the
stale redraw does overwrite the pixels of the stroke instead of being
ignored. -/
theorem c5_resize_race :
    (run (initEngine 100 100 1)
        [.request, .penDown ⟨none, 10, 10⟩ ⟨0, 0⟩, .penMove ⟨none, 30, 10⟩ ⟨0, 0⟩, .penUp,
         .resize 100 100, .resize 100 100,
         .penDown ⟨none, 10, 10⟩ ⟨0, 0⟩, .penMove ⟨none, 30, 10⟩ ⟨0, 0⟩, .penUp]).canvas.marks =
      [Mark.seg (10, 10) (30, 10)] ∧
    (run (initEngine 100 100 1)
        [.request, .penDown ⟨none, 10, 10⟩ ⟨0, 0⟩, .penMove ⟨none, 30, 10⟩ ⟨0, 0⟩, .penUp,
         .resize 100 100, .resize 100 100,
         .penDown ⟨none, 10, 10⟩ ⟨0, 0⟩, .penMove ⟨none, 30, 10⟩ ⟨0, 0⟩, .penUp]).pending =
      [⟨100, 100, [Mark.seg (10, 10) (30, 10)]⟩, ⟨100, 100, []⟩] ∧
    (redrawDone (run (initEngine 100 100 1)
        [.request, .penDown ⟨none, 10, 10⟩ ⟨0, 0⟩, .penMove ⟨none, 30, 10⟩ ⟨0, 0⟩, .penUp,
         .resize 100 100, .resize 100 100,
         .penDown ⟨none, 10, 10⟩ ⟨0, 0⟩, .penMove ⟨none, 30, 10⟩ ⟨0, 0⟩, .penUp]) 0).canvas.marks =
      [Mark.seg (10, 10) (30, 10), Mark.seg (10, 10) (30, 10)] ∧
    (redrawDone (run (initEngine 100 100 1)
        [.request, .penDown ⟨none, 10, 10⟩ ⟨0, 0⟩, .penMove ⟨none, 30, 10⟩ ⟨0, 0⟩, .penUp,
         .resize 100 100, .resize 100 100,
         .penDown ⟨none, 10, 10⟩ ⟨0, 0⟩, .penMove ⟨none, 30, 10⟩ ⟨0, 0⟩, .penUp]) 0).canvas ≠
      (run (initEngine 100 100 1)
        [.request, .penDown ⟨none, 10, 10⟩ ⟨0, 0⟩, .penMove ⟨none, 30, 10⟩ ⟨0, 0⟩, .penUp,
         .resize 100 100, .resize 100 100,
         .penDown ⟨none, 10, 10⟩ ⟨0, 0⟩, .penMove ⟨none, 30, 10⟩ ⟨0, 0⟩, .penUp]).canvas := by
  refine ⟨?_, ?_, ?_, ?_⟩ <;>
    norm_num [run, step, initEngine, setupCanvas, startDrawing, draw, stopDrawing,
      canDraw, getCoordinates, requestSignature, clearCanvas,
      Canvas.strokeSeg, handleResize, Canvas.toDataURL, redrawDone,
      Canvas.drawImage2, Canvas.drawImageRect, Canvas.mk.injEq, Canvas.clearRect, clearMarks]

/-- Claim C6 (amended): in every state and for either role,
`clearCanvas` never changes the role, the pad activity or the drawing
flag, maps status signed to not_signed and leaves the status unchanged
otherwise; on the pixel buffer it erases exactly the clearRect region
scaled by the context transform, from (0, 0) to (width * scale,
height * scale) — so it blanks the entire buffer whenever the device
pixel density is at least 1 and the ink lies within the backing
buffer, while at a density below 1 the cleared region is a proper
sub-rectangle of the buffer and ink outside it survives. -/
theorem c6_clear (s : Engine) :
    (clearCanvas s).currentUser = s.currentUser ∧
    (clearCanvas s).padActive = s.padActive ∧
    (clearCanvas s).isDrawing = s.isDrawing ∧
    (clearCanvas s).signatureStatus =
      (if s.signatureStatus = .signed then .not_signed else s.signatureStatus) ∧
    (clearCanvas s).canvas = s.canvas.clearRect s.canvas.width s.canvas.height ∧
    (1 ≤ s.canvas.scale →
      (∀ m ∈ s.canvas.marks, m.inRect s.canvas.width s.canvas.height) →
      (clearCanvas s).canvas.marks = []) := by
  refine ⟨rfl, rfl, rfl, rfl, rfl, ?_⟩
  intro hs hm
  exact clearRect_marks_nil s.canvas hs hm

/-- Witness for C6: clearing a 200 by 200 density-2 buffer holding one
in-bounds stroke leaves the buffer fully blank. -/
theorem c6_clear_witness :
    (clearCanvas { initEngine 100 100 2 with
        canvas := ⟨200, 200, 100, 100, 2, [Mark.seg (20, 20) (60, 20)]⟩ }).canvas.marks = [] := by
  refine (c6_clear { initEngine 100 100 2 with
      canvas := ⟨200, 200, 100, 100, 2, [Mark.seg (20, 20) (60, 20)]⟩ }).2.2.2.2.2
    (by norm_num) ?_
  intro m hm
  simp only [List.mem_singleton] at hm
  subst hm
  norm_num [Mark.inRect, Mark.ep1, Mark.ep2]

/-- Counterexample to C6 as stated: at device pixel density 1/2 the
buffer is 50 by 50 but the clear wipes only the backing region up to
(25, 25); a reachable state holds a stroke at backing pixels
(30, 30)-(40, 40) — inside the buffer, so genuinely visible ink — and
Clear leaves it in place, not blanking the entire pixel buffer. -/
theorem c6_counterexample :
    (run (initEngine 100 100 (1/2))
        [.request, .penDown ⟨none, 60, 60⟩ ⟨0, 0⟩, .penMove ⟨none, 80, 80⟩ ⟨0, 0⟩, .penUp,
         .clear]).canvas.marks = [Mark.seg (30, 30) (40, 40)] ∧
    Mark.inRect (Mark.seg (30, 30) (40, 40))
      (run (initEngine 100 100 (1/2))
        [.request, .penDown ⟨none, 60, 60⟩ ⟨0, 0⟩, .penMove ⟨none, 80, 80⟩ ⟨0, 0⟩, .penUp,
         .clear]).canvas.width
      (run (initEngine 100 100 (1/2))
        [.request, .penDown ⟨none, 60, 60⟩ ⟨0, 0⟩, .penMove ⟨none, 80, 80⟩ ⟨0, 0⟩, .penUp,
         .clear]).canvas.height ∧
    (run (initEngine 100 100 (1/2))
        [.request, .penDown ⟨none, 60, 60⟩ ⟨0, 0⟩, .penMove ⟨none, 80, 80⟩ ⟨0, 0⟩, .penUp,
         .clear]).canvas.marks ≠ [] := by
  refine ⟨?_, ?_, ?_⟩ <;>
    norm_num [run, step, initEngine, setupCanvas, startDrawing, draw, stopDrawing,
      canDraw, getCoordinates, requestSignature, clearCanvas,
      Canvas.clearRect, clearMarks, Mark.inRect, Mark.ep1, Mark.ep2, Canvas.strokeSeg]

/-- Claim C7 (amended): `downloadSignature` never fails and performs
no format validation: it leaves the state unchanged, the MIME type it
actually encodes with is always one of the supported set, and whenever
image/<fileFormat> is not a supported MIME type the encoder silently
substitutes image/png instead of raising an UnsupportedFormat
error. -/
theorem c7_export_format (s : Engine) :
    ((downloadSignature s).1 = s) ∧
    (supportedMimes.contains ("image/" ++ s.fileFormat) = false →
      (downloadSignature s).2.1 = "image/png") ∧
    (supportedMimes.contains (downloadSignature s).2.1 = true) := by
  refine ⟨rfl, ?_, ?_⟩
  · intro h
    have h2 : ("image/" ++ s.fileFormat) ∉ supportedMimes := by simpa using h
    simp [downloadSignature, encodeDataURL, h2]
  · by_cases h2 : ("image/" ++ s.fileFormat) ∈ supportedMimes
    · simp [downloadSignature, encodeDataURL, h2]
    · have h3 : (downloadSignature s).2.1 = "image/png" := by
        simp [downloadSignature, encodeDataURL, h2]
      rw [h3]
      decide

/-- Witness for C7: exporting with the unrecognized format "bmp"
silently produces image/png output. -/
theorem c7_export_format_witness :
    (downloadSignature { initEngine 100 50 1 with fileFormat := "bmp" }).2.1 = "image/png" :=
  (c7_export_format { initEngine 100 50 1 with fileFormat := "bmp" }).2.1 (by rfl)

/-- Counterexample to C7 as stated: with the format value "bmp",
outside the supported raster set, export does not fail with a typed
UnsupportedFormat error — it succeeds, leaves the state unchanged, and
silently substitutes the default PNG encoding. -/
theorem c7_counterexample :
    (downloadSignature { initEngine 100 50 1 with fileFormat := "bmp" }).1 =
      { initEngine 100 50 1 with fileFormat := "bmp" } ∧
    (downloadSignature { initEngine 100 50 1 with fileFormat := "bmp" }).2 =
      ("image/png", ({ initEngine 100 50 1 with fileFormat := "bmp" } : Engine).canvas.toDataURL) :=
  ⟨rfl, rfl⟩

/-- Claim C8: in every state reachable from the initial state by
RequestSignature, CompleteSignature, Clear, ToggleRole and Export,
pad activity implies status requested; and ToggleRole changes only the
active role — every other component of the state is untouched. -/
theorem c8_invariant :
    (∀ (offW offH d : ℚ) (acts : List WfAct),
      (wfRun (initEngine offW offH d) acts).padActive = true →
      (wfRun (initEngine offW offH d) acts).signatureStatus = .requested) ∧
    (∀ s : Engine,
      toggleUser s =
        { s with currentUser := if s.currentUser = .admin then .client else .admin }) := by
  constructor
  · intro offW offH d acts
    exact wf_inv_run _ acts (by intro hp; exact absurd hp (by simp [initEngine]))
  · intro s
    rfl

/-- Witness for C8: after a single RequestSignature from the initial
state the pad is active and the status is indeed requested. -/
theorem c8_invariant_witness :
    (wfRun (initEngine 100 50 1) [WfAct.request]).signatureStatus = .requested :=
  c8_invariant.1 100 50 1 [WfAct.request] rfl

/-- Claim C9: export leaves the whole state (role, status, pad
activity, drawing flag, pixel buffer) unchanged in every state,
without any status gating, and two consecutive exports with the same
format and no intervening drawing produce byte-identical encoded
output. -/
theorem c9_export (s : Engine) :
    (downloadSignature s).1 = s ∧
    (downloadSignature (downloadSignature s).1).2 = (downloadSignature s).2 :=
  ⟨rfl, rfl⟩

/-- Claim C10: the mapped point is exactly (rawX - rect.left,
rawY - rect.top); for touch events only the first active contact is
used and all further simultaneous contacts are ignored; the mapping is
total and unclamped, returning a point even outside the surface
bounds. -/
theorem c10_coordinates :
    (∀ (e : InputEvent) (r : Rect), e.touches = none →
        getCoordinates e r = (e.clientX - r.left, e.clientY - r.top)) ∧
    (∀ (e : InputEvent) (r : Rect) (t : Touch) (rest : List Touch),
        e.touches = some (t, rest) →
        getCoordinates e r = (t.clientX - r.left, t.clientY - r.top)) := by
  constructor
  · intro e r h
    simp [getCoordinates, h]
  · intro e r t rest h
    simp [getCoordinates, h]

/-- Witness for C10: a mouse event left of and above the surface maps
to a negative, unclamped point, and a two-contact touch event uses
only the first contact. -/
theorem c10_coordinates_witness :
    getCoordinates ⟨none, -5, 3⟩ ⟨10, 20⟩ = (-15, -17) ∧
    getCoordinates ⟨some (⟨1, 2⟩, [⟨100, 100⟩]), 50, 50⟩ ⟨10, 20⟩ = (-9, -18) := by
  constructor
  · rw [c10_coordinates.1 ⟨none, -5, 3⟩ ⟨10, 20⟩ rfl]
    norm_num
  · rw [c10_coordinates.2 ⟨some (⟨1, 2⟩, [⟨100, 100⟩]), 50, 50⟩ ⟨10, 20⟩ ⟨1, 2⟩ [⟨100, 100⟩] rfl]
    norm_num

end SigPad
